import Mathlib

/-!
Verification of `fetch_arxiv.py` (arxiv-digest).

Shallow embedding conventions:
* Timestamps are naive wall-clock instants modelled as `Int` seconds on one
  timeline (the script compares `result.published.replace(tzinfo=None)` with
  `datetime.now()` as naive datetimes, so a single basis is faithful).
* `datetime.timedelta(days = d)` is `d * 86400` seconds.
* Every call to `datetime.now()` is one reading of an external clock,
  modelled as a function `clock : Nat → Int` indexed by the order of the
  reads in program text (read 0 in `fetch_recent_papers`, reads 1-4 in
  `save_to_json`).
* The upstream search (`client.results(search)` for `cat:<c>`, descending by
  submission date, `max_results = 200`) is modelled by an environment
  `resultsOf : String → List ArxivResult` giving the stream the service
  would yield for category `c`; the `max_results = 200` cap is `take 200`.
* The filesystem is a value `FS`: a set of directories and a map from path
  to file content.  `open(..., "w")` + `json.dump` is a single write of the
  serialized string; `Path.mkdir(exist_ok = True)` adds the directory.
* `datetime.isoformat` and the exact `json.dump` text are injective
  renderings; the serializer below is executable and deterministic, which is
  what the claims about file content use.
-/

namespace ArxivDigest

/-- One result yielded by the upstream search client: the fields of
`arxiv.Result` that `fetch_recent_papers` consumes (`authors` already
projected to the author names, as `[author.name for author in ...]` does). -/
structure ArxivResult where
  title : String
  authors : List String
  summary : String
  entry_id : String
  published : Int
  categories : List String
  primary_category : String
deriving Repr, DecidableEq

/-- The paper dict built inside the loop of `fetch_recent_papers`. -/
structure Paper where
  title : String
  authors : List String
  abstract : String
  link : String
  published : Int
  categories : List String
  primary_category : String
deriving Repr, DecidableEq

/-- `CATEGORIES = ["cs.AI", "cs.LG", "cs.CL", "cs.CY"]`. -/
def CATEGORIES : List String := ["cs.AI", "cs.LG", "cs.CL", "cs.CY"]

/-- `timedelta(days = d)`, in seconds. -/
def timedelta (days : Int) : Int := days * 86400

/-- `summary.replace("\n", " ")`: for the one-character pattern `"\n"` this
is exactly the character-wise substitution of a space for each newline. -/
def replaceNewlines (s : String) : String :=
  String.mk (s.data.map fun ch => if ch = '\n' then ' ' else ch)

/-- The dict construction in the body of the result loop:
abstract gets newlines replaced by spaces, `link` is the entry id. -/
def mkPaper (r : ArxivResult) : Paper :=
  { title := r.title
    authors := r.authors
    abstract := replaceNewlines r.summary
    link := r.entry_id
    published := r.published
    categories := r.categories
    primary_category := r.primary_category }

/-- The inner `for result in client.results(search)` loop of
`fetch_recent_papers` for one category: keep a result if
`result.published >= start_date`, else `break` (drop the rest). -/
def walkResults (start_date : Int) : List ArxivResult → List Paper
  | [] => []
  | r :: rs =>
    if start_date ≤ r.published then mkPaper r :: walkResults start_date rs
    else []

/-- The records one category contributes: the early-exit walk over the
(at most 200) results the service yields for it. -/
def keptPapers (resultsOf : String → List ArxivResult) (start_date : Int)
    (c : String) : List Paper :=
  walkResults start_date ((resultsOf c).take 200)

/-- The outer `for category in CATEGORIES` loop, with the accumulating
`papers` list. -/
def fetchLoop (start_date : Int) (resultsOf : String → List ArxivResult) :
    List String → List Paper → List Paper
  | [], papers => papers
  | c :: cs, papers =>
    fetchLoop start_date resultsOf cs (papers ++ keptPapers resultsOf start_date c)

/-- `fetch_recent_papers(days)`: `end_date = datetime.now()` (clock read),
`start_date = end_date - timedelta(days = days)`, then the category loop. -/
def fetch_recent_papers (resultsOf : String → List ArxivResult)
    (now : Int) (days : Int) : List Paper :=
  let end_date := now
  let start_date := end_date - timedelta days
  fetchLoop start_date resultsOf CATEGORIES []

/-- The `date_range` sub-object of the output. -/
structure DateRange where
  start : Int
  «end» : Int
deriving Repr, DecidableEq

/-- The `output` dict built in `save_to_json` (the FetchResult):
`fetched_at`, `date_range.start` and `date_range.end` each come from their
own `datetime.now()` reading, `count = len(papers)`. -/
structure Output where
  fetched_at : Int
  date_range : DateRange
  count : Nat
  papers : List Paper
deriving Repr, DecidableEq

/-- Build the output dict from the collected papers, the day window and the
three clock readings taken while building it. -/
def mkOutput (papers : List Paper) (days : Int)
    (tFetched tStart tEnd : Int) : Output :=
  { fetched_at := tFetched
    date_range := { start := tStart - timedelta days, «end» := tEnd }
    count := papers.length
    papers := papers }

/-- `datetime.now().strftime('%Y-%m-%d')` renders the calendar day of the
reading; modelled as the (injective per calendar day) day number of the
timestamp, so two readings give equal strings exactly when they fall on the
same day of the shared timeline. -/
def dateString (t : Int) : String := toString (t / 86400)

/-- The dated output path `f"data/arxiv-{...:%Y-%m-%d}.json"`. -/
def datedName (t : Int) : String := "data/arxiv-" ++ dateString t ++ ".json"

/-- The fixed path `data/latest.json`. -/
def latest_file : String := "data/latest.json"

/-- A rendered JSON string literal (quoting; escaping of inner characters is
an injective detail no claim depends on). -/
def jsonString (s : String) : String := "\"" ++ s ++ "\""

/-- A rendered JSON array. -/
def jsonArray (xs : List String) : String :=
  "[" ++ String.intercalate ", " xs ++ "]"

/-- `datetime.isoformat()`: an injective rendering of the timestamp. -/
def isoformat (t : Int) : String := toString t

/-- JSON rendering of one paper dict, in the key order of the source. -/
def paperJson (p : Paper) : String :=
  "\x7b" ++ jsonString "title" ++ ": " ++ jsonString p.title ++ ", "
    ++ jsonString "authors" ++ ": " ++ jsonArray (p.authors.map jsonString) ++ ", "
    ++ jsonString "abstract" ++ ": " ++ jsonString p.abstract ++ ", "
    ++ jsonString "link" ++ ": " ++ jsonString p.link ++ ", "
    ++ jsonString "published" ++ ": " ++ jsonString (isoformat p.published) ++ ", "
    ++ jsonString "categories" ++ ": " ++ jsonArray (p.categories.map jsonString) ++ ", "
    ++ jsonString "primary_category" ++ ": " ++ jsonString p.primary_category
    ++ "\x7d"

/-- `json.dump(output, f, indent=2)`: the deterministic serialization of the
output dict to the byte string written to the file (indentation omitted;
only determinism and injectiveness of the rendering matter to the claims). -/
def dumpJson (o : Output) : String :=
  "\x7b" ++ jsonString "fetched_at" ++ ": " ++ jsonString (isoformat o.fetched_at) ++ ", "
    ++ jsonString "date_range" ++ ": \x7b"
      ++ jsonString "start" ++ ": " ++ jsonString (isoformat o.date_range.start) ++ ", "
      ++ jsonString "end" ++ ": " ++ jsonString (isoformat o.date_range.«end») ++ "\x7d, "
    ++ jsonString "count" ++ ": " ++ toString o.count ++ ", "
    ++ jsonString "papers" ++ ": " ++ jsonArray (o.papers.map paperJson)
    ++ "\x7d"

/-- The filesystem: the set of existing directories and the file contents. -/
structure FS where
  dirs : List String
  files : String → Option String

/-- `Path(d).mkdir(exist_ok = True)`. -/
def FS.mkdir (fs : FS) (d : String) : FS :=
  { fs with dirs := if d ∈ fs.dirs then fs.dirs else d :: fs.dirs }

/-- `open(path, "w")` followed by writing `content`: overwrites the path. -/
def FS.write (fs : FS) (path content : String) : FS :=
  { fs with files := fun p => if p = path then some content else fs.files p }

/-- `save_to_json(papers, days)`: make `data/`, build the output dict with
clock readings `tName` (filename), `tFetched`, `tStart`, `tEnd` (in program
order), and write the same serialization to the dated file then to
`latest.json`. -/
def save_to_json (fs : FS) (papers : List Paper) (days : Int)
    (tName tFetched tStart tEnd : Int) : FS :=
  let fs1 := fs.mkdir "data"
  let filename := datedName tName
  let output := mkOutput papers days tFetched tStart tEnd
  let fs2 := fs1.write filename (dumpJson output)
  let fs3 := fs2.write latest_file (dumpJson output)
  fs3

/-- The output dict a run serializes (clock reads 0 = fetch, 2-4 = the
`fetched_at`/`start`/`end` reads inside `save_to_json`; read 1 is the
filename read). -/
def runOutput (resultsOf : String → List ArxivResult) (clock : Nat → Int) :
    Output :=
  mkOutput (fetch_recent_papers resultsOf (clock 0) 7) 7
    (clock 2) (clock 3) (clock 4)

/-- The `__main__` block with `DAYS = 7`: fetch, then save. -/
def run (resultsOf : String → List ArxivResult) (clock : Nat → Int)
    (fs : FS) : FS :=
  let papers := fetch_recent_papers resultsOf (clock 0) 7
  save_to_json fs papers 7 (clock 1) (clock 2) (clock 3) (clock 4)

/-- The fallible upstream: each stream element is either a yielded result or
a raised network/service error. -/
def ResultStream := List (Except String ArxivResult)

/-- The inner result loop when the stream can raise: a raised error aborts
the whole call (the accumulated `papers` local is lost with the frame). -/
def walkResultsE (start_date : Int) :
    List Paper → List (Except String ArxivResult) → Except String (List Paper)
  | acc, [] => .ok acc
  | _, .error e :: _ => .error e
  | acc, .ok r :: rs =>
    if start_date ≤ r.published then
      walkResultsE start_date (acc ++ [mkPaper r]) rs
    else .ok acc

/-- The category loop over fallible streams: a raised error propagates out of
`fetch_recent_papers` uncaught. -/
def fetchLoopE (start_date : Int)
    (resultsOf : String → List (Except String ArxivResult)) :
    List String → List Paper → Except String (List Paper)
  | [], papers => .ok papers
  | c :: cs, papers =>
    match walkResultsE start_date papers ((resultsOf c).take 200) with
    | .error e => .error e
    | .ok papers2 => fetchLoopE start_date resultsOf cs papers2

/-- `fetch_recent_papers` over the fallible upstream. -/
def fetch_recent_papersE
    (resultsOf : String → List (Except String ArxivResult))
    (now : Int) (days : Int) : Except String (List Paper) :=
  fetchLoopE (now - timedelta days) resultsOf CATEGORIES []

/-- The `__main__` block over the fallible upstream: if the fetch raises, the
exception propagates to the invoker and `save_to_json` never runs, so the
filesystem is untouched. -/
def runE (resultsOf : String → List (Except String ArxivResult))
    (clock : Nat → Int) (fs : FS) : FS × Except String Unit :=
  match fetch_recent_papersE resultsOf (clock 0) 7 with
  | .error e => (fs, .error e)
  | .ok papers =>
    (save_to_json fs papers 7 (clock 1) (clock 2) (clock 3) (clock 4), .ok ())

/-- Modelled from the spec: "scanning all 200 results and filtering by
date" — scan every returned result (the service returns at most 200) and
keep exactly those whose published timestamp is at or after the window
start, with no early exit. -/
def filterScan (start_date : Int) (rs : List ArxivResult) : List Paper :=
  (((rs.take 200).filter fun r => decide (start_date ≤ r.published)).map mkPaper)

/-! Helper lemmas about the embedded functions. -/

/-- Every paper the early-exit walk keeps passed the cutoff test. -/
theorem walk_published_ge (s : Int) (rs : List ArxivResult) (p : Paper)
    (hp : p ∈ walkResults s rs) : s ≤ p.published := by
  induction rs with
  | nil => simp [walkResults] at hp
  | cons r rs ih =>
    unfold walkResults at hp
    by_cases h : s ≤ r.published
    · rw [if_pos h] at hp
      rcases List.mem_cons.mp hp with h2 | h2
      · subst h2; exact h
      · exact ih h2
    · rw [if_neg h] at hp
      simp at hp

/-- The early-exit walk is `takeWhile` of the cutoff test, mapped through the
record construction (so it keeps an in-order prefix of the stream). -/
theorem walk_eq_takeWhile (s : Int) (rs : List ArxivResult) :
    walkResults s rs
      = (rs.takeWhile fun r => decide (s ≤ r.published)).map mkPaper := by
  induction rs with
  | nil => rfl
  | cons r rs ih =>
    unfold walkResults
    by_cases h : s ≤ r.published
    · rw [if_pos h]
      simp [List.takeWhile_cons, h, ih]
    · rw [if_neg h]
      simp [List.takeWhile_cons, h]

/-- On a stream strictly sorted descending by publication date the
early-exit walk agrees with filtering the whole stream. -/
theorem walk_eq_filter_of_sorted (s : Int) (rs : List ArxivResult)
    (hs : rs.Pairwise fun a b => b.published < a.published) :
    walkResults s rs
      = ((rs.filter fun r => decide (s ≤ r.published)).map mkPaper) := by
  induction rs with
  | nil => rfl
  | cons r rs ih =>
    rcases List.pairwise_cons.mp hs with ⟨hr, hrs⟩
    unfold walkResults
    by_cases h : s ≤ r.published
    · rw [if_pos h]
      simp [List.filter_cons, h, ih hrs]
    · rw [if_neg h]
      have hnil : (r :: rs).filter (fun r => decide (s ≤ r.published)) = [] := by
        rw [List.filter_eq_nil_iff]
        intro a ha
        simp only [decide_eq_true_eq]
        rcases List.mem_cons.mp ha with h2 | h2
        · subst h2; exact h
        · intro hle
          exact h (le_of_lt (lt_of_le_of_lt hle (hr a h2)))
      rw [hnil]
      rfl

/-- The accumulating category loop produces the concatenation, in category
order, of what each category contributes. -/
theorem fetchLoop_eq (s : Int) (resultsOf : String → List ArxivResult) :
    ∀ (cats : List String) (acc : List Paper),
      fetchLoop s resultsOf cats acc
        = acc ++ (cats.map (keptPapers resultsOf s)).flatten := by
  intro cats
  induction cats with
  | nil => intro acc; simp [fetchLoop]
  | cons c cs ih =>
    intro acc
    rw [fetchLoop, ih]
    simp [List.append_assoc]

/-- `fetch_recent_papers` is the flattening of the per-category kept lists. -/
theorem fetch_eq_flatten (resultsOf : String → List ArxivResult)
    (now days : Int) :
    fetch_recent_papers resultsOf now days
      = (CATEGORIES.map (keptPapers resultsOf (now - timedelta days))).flatten := by
  unfold fetch_recent_papers
  rw [fetchLoop_eq]
  rfl

/-- The dated filename never collides with `data/latest.json`. -/
theorem dated_ne_latest (t : Int) : datedName t ≠ latest_file := by
  intro h
  have h2 := congrArg String.data h
  simp only [datedName, latest_file, String.data_append] at h2
  simp at h2

/-- After `save_to_json`, `data/latest.json` holds the serialized output. -/
theorem save_files_latest (fs : FS) (papers : List Paper) (days : Int)
    (tName tFetched tStart tEnd : Int) :
    (save_to_json fs papers days tName tFetched tStart tEnd).files latest_file
      = some (dumpJson (mkOutput papers days tFetched tStart tEnd)) := by
  simp [save_to_json, FS.write]

/-- After `save_to_json`, the dated file holds the serialized output. -/
theorem save_files_dated (fs : FS) (papers : List Paper) (days : Int)
    (tName tFetched tStart tEnd : Int) :
    (save_to_json fs papers days tName tFetched tStart tEnd).files (datedName tName)
      = some (dumpJson (mkOutput papers days tFetched tStart tEnd)) := by
  simp [save_to_json, FS.write, dated_ne_latest tName]

/-- After `save_to_json`, the output directory exists. -/
theorem save_dirs (fs : FS) (papers : List Paper) (days : Int)
    (tName tFetched tStart tEnd : Int) :
    "data" ∈ (save_to_json fs papers days tName tFetched tStart tEnd).dirs := by
  unfold save_to_json FS.write FS.mkdir
  by_cases h : "data" ∈ fs.dirs
  · simp [h]
  · simp [h]

/-! Concrete inputs used by witnesses and counterexamples. -/

/-- A concrete upstream result published exactly at the fetch cutoff of the
runs below (7 days before clock reading 0). -/
def exResult : ArxivResult :=
  { title := "Example"
    authors := ["Ada"]
    summary := "line one\nline two"
    entry_id := "http://arxiv.org/abs/0000.00001v1"
    published := -604800
    categories := ["cs.AI"]
    primary_category := "cs.AI" }

/-- An upstream where only `cs.AI` returns anything. -/
def exResultsOf : String → List ArxivResult :=
  fun c => if c = "cs.AI" then [exResult] else []

/-- A clock that advances by an hour between the fetch-step reading (read 0)
and the later readings inside `save_to_json`. -/
def exClock : Nat → Int := fun i => if i = 0 then 0 else 3600

/-- A strictly descending stream for the C2 witness. -/
def c2Stream : List ArxivResult :=
  [{ exResult with published := 10, entry_id := "http://arxiv.org/abs/1" },
   { exResult with published := 5, entry_id := "http://arxiv.org/abs/2" },
   { exResult with published := -3, entry_id := "http://arxiv.org/abs/3" }]

/-- An upstream where `cs.AI` returns the descending stream above. -/
def c2ResultsOf : String → List ArxivResult :=
  fun c => if c = "cs.AI" then c2Stream else []

/-- A clock whose reading `i` is the instant `i`. -/
def idClock : Nat → Int := fun i => (i : Int)

/-- An upstream that returns the same result for both cs.AI and cs.LG. -/
def c4ResultsOf : String → List ArxivResult :=
  fun c => if c = "cs.AI" ∨ c = "cs.LG" then [exResult] else []

/-- An upstream that returns nothing for every category. -/
def emptyResultsOf : String → List ArxivResult := fun _ => []

/-- An empty filesystem. -/
def emptyFS : FS := { dirs := [], files := fun _ => none }

/-- A fallible upstream whose every request raises a connection error. -/
def downResultsOf : String → List (Except String ArxivResult) :=
  fun _ => [.error "connection refused"]

/-! The claims. -/

/-- Claim C2: for a category whose returned results are strictly sorted
descending by publication date, the fetcher's early-exit walk produces
exactly the same records as scanning all returned results (up to 200) and
keeping those published at or after the window start. -/
theorem C2_early_exit_eq_full_scan (resultsOf : String → List ArxivResult)
    (start_date : Int) (c : String)
    (hs : (resultsOf c).Pairwise fun a b => b.published < a.published) :
    keptPapers resultsOf start_date c = filterScan start_date (resultsOf c) := by
  unfold keptPapers filterScan
  exact walk_eq_filter_of_sorted start_date ((resultsOf c).take 200)
    (List.Pairwise.sublist (List.take_sublist 200 (resultsOf c)) hs)

/-- Witness for C2 at a concrete sorted stream. -/
theorem C2_early_exit_eq_full_scan_witness :
    ((c2ResultsOf "cs.AI").Pairwise fun a b => b.published < a.published)
    ∧ keptPapers c2ResultsOf 4 "cs.AI" = filterScan 4 (c2ResultsOf "cs.AI") :=
  ⟨by decide, C2_early_exit_eq_full_scan c2ResultsOf 4 "cs.AI" (by decide)⟩

/-- Claim C3: the count field of the written FetchResult equals the length
of its papers array. -/
theorem C3_count_eq_length (resultsOf : String → List ArxivResult)
    (clock : Nat → Int) :
    (runOutput resultsOf clock).count
      = (runOutput resultsOf clock).papers.length := rfl

/-- Claim C5: within a single run, the dated file and the latest file
receive identical content, namely the serialization of the one output
object built by the Writer. -/
theorem C5_both_files_identical (fs : FS) (papers : List Paper) (days : Int)
    (tName tFetched tStart tEnd : Int) :
    (save_to_json fs papers days tName tFetched tStart tEnd).files (datedName tName)
      = (save_to_json fs papers days tName tFetched tStart tEnd).files latest_file
    ∧ (save_to_json fs papers days tName tFetched tStart tEnd).files latest_file
      = some (dumpJson (mkOutput papers days tFetched tStart tEnd)) := by
  refine ⟨?_, save_files_latest fs papers days tName tFetched tStart tEnd⟩
  rw [save_files_dated, save_files_latest]

/-- Claim C9: the papers array is the concatenation of the per-category
kept records in the fixed order cs.AI, cs.LG, cs.CL, cs.CY, and within one
category the kept records are the in-order prefix (takeWhile of the cutoff
test) of the stream exactly as the service returned it. -/
theorem C9_concatenation_in_category_order
    (resultsOf : String → List ArxivResult) (now days : Int) :
    fetch_recent_papers resultsOf now days
      = keptPapers resultsOf (now - timedelta days) "cs.AI"
        ++ keptPapers resultsOf (now - timedelta days) "cs.LG"
        ++ keptPapers resultsOf (now - timedelta days) "cs.CL"
        ++ keptPapers resultsOf (now - timedelta days) "cs.CY"
    ∧ ∀ rs : List ArxivResult,
        walkResults (now - timedelta days) rs
          = (rs.takeWhile fun r => decide (now - timedelta days ≤ r.published)).map
              mkPaper := by
  constructor
  · rw [fetch_eq_flatten]
    simp [CATEGORIES, List.append_assoc]
  · intro rs
    exact walk_eq_takeWhile _ rs

/-- Claim C10: fetched_at and the date_range bounds are serialization-time
clock readings, not the fetch cutoff: with a monotone clock the recorded
range is at least the window wide, and if any time elapsed between the
fetch reading and the write readings the recorded start is strictly later
than the cutoff the fetcher applied. -/
theorem C10_date_range_from_write_time_readings
    (resultsOf : String → List ArxivResult) (clock : Nat → Int)
    (h34 : clock 3 ≤ clock 4) (h03 : clock 0 < clock 3) :
    (runOutput resultsOf clock).fetched_at = clock 2
    ∧ timedelta 7 ≤ (runOutput resultsOf clock).date_range.«end»
        - (runOutput resultsOf clock).date_range.start
    ∧ clock 0 - timedelta 7 < (runOutput resultsOf clock).date_range.start := by
  refine ⟨rfl, ?_, ?_⟩
  · show timedelta 7 ≤ clock 4 - (clock 3 - timedelta 7)
    omega
  · show clock 0 - timedelta 7 < clock 3 - timedelta 7
    omega

/-- Witness for C10 with the identity clock. -/
theorem C10_date_range_from_write_time_readings_witness :
    (idClock 3 ≤ idClock 4 ∧ idClock 0 < idClock 3)
    ∧ ((runOutput exResultsOf idClock).fetched_at = idClock 2
        ∧ timedelta 7 ≤ (runOutput exResultsOf idClock).date_range.«end»
            - (runOutput exResultsOf idClock).date_range.start
        ∧ idClock 0 - timedelta 7 < (runOutput exResultsOf idClock).date_range.start) :=
  ⟨⟨by decide, by decide⟩,
    C10_date_range_from_write_time_readings exResultsOf idClock
      (by decide) (by decide)⟩

/-- Claim C1 as stated is false: the cutoff the fetcher applies is computed
from the fetch-step clock reading, while fetched_at is a later reading, so
a paper published exactly at the cutoff undercuts fetched_at minus the
window once any time elapses between the two readings.  Here the clock
advances by an hour in between and the kept paper violates the claim. -/
theorem C1_counterexample :
    ¬ (∀ p ∈ (runOutput exResultsOf exClock).papers,
        (runOutput exResultsOf exClock).fetched_at - timedelta 7 ≤ p.published) := by
  decide

/-- Claim C1 (amended): every produced PaperRecord's published timestamp is
at or after the fetch-step clock reading minus the configured window (the
cutoff the fetcher actually applied); with fetched_at in its place the
bound holds only when no time elapses between the fetch-step reading and
the fetched_at reading. -/
theorem C1_published_ge_fetch_cutoff
    (resultsOf : String → List ArxivResult) (clock : Nat → Int) (p : Paper)
    (hp : p ∈ (runOutput resultsOf clock).papers) :
    clock 0 - timedelta 7 ≤ p.published := by
  have hpap : (runOutput resultsOf clock).papers
      = (CATEGORIES.map (keptPapers resultsOf (clock 0 - timedelta 7))).flatten :=
    fetch_eq_flatten resultsOf (clock 0) 7
  rw [hpap] at hp
  rcases List.mem_flatten.mp hp with ⟨l, hl, hpl⟩
  rcases List.mem_map.mp hl with ⟨c, _, rfl⟩
  exact walk_published_ge _ _ _ hpl

/-- Witness for the amended C1: the cutoff paper of the counterexample run
does satisfy the amended bound. -/
theorem C1_published_ge_fetch_cutoff_witness :
    mkPaper exResult ∈ (runOutput exResultsOf exClock).papers
    ∧ exClock 0 - timedelta 7 ≤ (mkPaper exResult).published :=
  ⟨by decide,
    C1_published_ge_fetch_cutoff exResultsOf exClock (mkPaper exResult) (by decide)⟩

/-- Claim C4: a record kept for two distinct categories of the run appears
at least twice in the papers array; nothing de-duplicates across
categories. -/
theorem C4_no_dedup_across_categories
    (resultsOf : String → List ArxivResult) (clock : Nat → Int)
    (c₁ c₂ : String) (h₁ : c₁ ∈ CATEGORIES) (h₂ : c₂ ∈ CATEGORIES)
    (hne : c₁ ≠ c₂) (p : Paper)
    (hp₁ : p ∈ keptPapers resultsOf (clock 0 - timedelta 7) c₁)
    (hp₂ : p ∈ keptPapers resultsOf (clock 0 - timedelta 7) c₂) :
    2 ≤ (runOutput resultsOf clock).papers.count p := by
  have t₁ : 0 < (keptPapers resultsOf (clock 0 - timedelta 7) c₁).count p :=
    List.count_pos_iff.mpr hp₁
  have t₂ : 0 < (keptPapers resultsOf (clock 0 - timedelta 7) c₂).count p :=
    List.count_pos_iff.mpr hp₂
  have hpap : (runOutput resultsOf clock).papers
      = (CATEGORIES.map (keptPapers resultsOf (clock 0 - timedelta 7))).flatten :=
    fetch_eq_flatten resultsOf (clock 0) 7
  rw [hpap]
  simp only [CATEGORIES, List.mem_cons, List.not_mem_nil, or_false] at h₁ h₂
  rcases h₁ with rfl | rfl | rfl | rfl <;> rcases h₂ with rfl | rfl | rfl | rfl <;>
    first
      | exact absurd rfl hne
      | (simp only [CATEGORIES, List.map_cons, List.map_nil, List.flatten_cons,
          List.flatten_nil, List.count_append, List.count_nil] at *
         omega)

/-- Witness for C4: the same result returned by both cs.AI and cs.LG. -/
theorem C4_no_dedup_across_categories_witness :
    ("cs.AI" ∈ CATEGORIES ∧ "cs.LG" ∈ CATEGORIES ∧ "cs.AI" ≠ "cs.LG"
      ∧ mkPaper exResult ∈ keptPapers c4ResultsOf (idClock 0 - timedelta 7) "cs.AI"
      ∧ mkPaper exResult ∈ keptPapers c4ResultsOf (idClock 0 - timedelta 7) "cs.LG")
    ∧ 2 ≤ (runOutput c4ResultsOf idClock).papers.count (mkPaper exResult) :=
  ⟨⟨by decide, by decide, by decide, by decide, by decide⟩,
    C4_no_dedup_across_categories c4ResultsOf idClock "cs.AI" "cs.LG"
      (by decide) (by decide) (by decide) (mkPaper exResult)
      (by decide) (by decide)⟩

/-- Claim C6: when every category yields zero results the run still writes
both output files, with count 0 and an empty papers array. -/
theorem C6_empty_categories_still_written
    (resultsOf : String → List ArxivResult) (clock : Nat → Int) (fs : FS)
    (hempty : ∀ c ∈ CATEGORIES, resultsOf c = []) :
    (runOutput resultsOf clock).count = 0
    ∧ (runOutput resultsOf clock).papers = []
    ∧ (run resultsOf clock fs).files (datedName (clock 1))
        = some (dumpJson (runOutput resultsOf clock))
    ∧ (run resultsOf clock fs).files latest_file
        = some (dumpJson (runOutput resultsOf clock)) := by
  have hkept : ∀ c ∈ CATEGORIES, keptPapers resultsOf (clock 0 - timedelta 7) c = [] := by
    intro c hc
    unfold keptPapers
    rw [hempty c hc]
    rfl
  have hfetch : fetch_recent_papers resultsOf (clock 0) 7 = [] := by
    rw [fetch_eq_flatten]
    rw [List.flatten_eq_nil_iff]
    intro l hl
    rcases List.mem_map.mp hl with ⟨c, hc, rfl⟩
    exact hkept c hc
  have hout : runOutput resultsOf clock
      = mkOutput [] 7 (clock 2) (clock 3) (clock 4) := by
    unfold runOutput
    rw [hfetch]
  have hrun : run resultsOf clock fs
      = save_to_json fs [] 7 (clock 1) (clock 2) (clock 3) (clock 4) := by
    unfold run
    rw [hfetch]
  refine ⟨by rw [hout]; rfl, by rw [hout]; rfl, ?_, ?_⟩
  · rw [hrun, hout]
    exact save_files_dated fs [] 7 (clock 1) (clock 2) (clock 3) (clock 4)
  · rw [hrun, hout]
    exact save_files_latest fs [] 7 (clock 1) (clock 2) (clock 3) (clock 4)

/-- Witness for C6 on an upstream that returns nothing and an empty
filesystem. -/
theorem C6_empty_categories_still_written_witness :
    (∀ c ∈ CATEGORIES, emptyResultsOf c = [])
    ∧ ((runOutput emptyResultsOf idClock).count = 0
        ∧ (runOutput emptyResultsOf idClock).papers = []
        ∧ (run emptyResultsOf idClock emptyFS).files (datedName (idClock 1))
            = some (dumpJson (runOutput emptyResultsOf idClock))
        ∧ (run emptyResultsOf idClock emptyFS).files latest_file
            = some (dumpJson (runOutput emptyResultsOf idClock))) :=
  ⟨by decide,
    C6_empty_categories_still_written emptyResultsOf idClock emptyFS (by decide)⟩

/-- Claim C7: a second run on the same calendar day overwrites both the
dated file (same name as the first run's) and the latest file with exactly
the second run's content, whatever the filesystem held before, and the
output directory exists afterwards. -/
theorem C7_second_run_overwrites
    (r₁ r₂ : String → List ArxivResult) (clock₁ clock₂ : Nat → Int) (fs : FS)
    (hday : dateString (clock₁ 1) = dateString (clock₂ 1)) :
    (run r₂ clock₂ (run r₁ clock₁ fs)).files (datedName (clock₁ 1))
      = some (dumpJson (runOutput r₂ clock₂))
    ∧ (run r₂ clock₂ (run r₁ clock₁ fs)).files latest_file
      = some (dumpJson (runOutput r₂ clock₂))
    ∧ "data" ∈ (run r₂ clock₂ (run r₁ clock₁ fs)).dirs := by
  have hname : datedName (clock₁ 1) = datedName (clock₂ 1) := by
    unfold datedName
    rw [hday]
  refine ⟨?_, ?_, ?_⟩
  · rw [hname]
    exact save_files_dated (run r₁ clock₁ fs)
      (fetch_recent_papers r₂ (clock₂ 0) 7) 7
      (clock₂ 1) (clock₂ 2) (clock₂ 3) (clock₂ 4)
  · exact save_files_latest (run r₁ clock₁ fs)
      (fetch_recent_papers r₂ (clock₂ 0) 7) 7
      (clock₂ 1) (clock₂ 2) (clock₂ 3) (clock₂ 4)
  · exact save_dirs (run r₁ clock₁ fs)
      (fetch_recent_papers r₂ (clock₂ 0) 7) 7
      (clock₂ 1) (clock₂ 2) (clock₂ 3) (clock₂ 4)

/-- Witness for C7: two same-day runs (the second sees an extra paper) over
an initially empty filesystem. -/
theorem C7_second_run_overwrites_witness :
    dateString (idClock 1) = dateString (idClock 1)
    ∧ ((run c4ResultsOf idClock (run emptyResultsOf idClock emptyFS)).files
          (datedName (idClock 1))
        = some (dumpJson (runOutput c4ResultsOf idClock))
      ∧ (run c4ResultsOf idClock (run emptyResultsOf idClock emptyFS)).files
          latest_file
        = some (dumpJson (runOutput c4ResultsOf idClock))
      ∧ "data" ∈ (run c4ResultsOf idClock (run emptyResultsOf idClock emptyFS)).dirs) :=
  ⟨rfl,
    C7_second_run_overwrites emptyResultsOf c4ResultsOf idClock idClock emptyFS rfl⟩

/-- Claim C8: when an upstream call raises, the exception propagates out of
the run uncaught — no retry — and the filesystem is exactly as before: no
partial results are persisted. -/
theorem C8_error_propagates_untouched_fs
    (resultsOf : String → List (Except String ArxivResult))
    (clock : Nat → Int) (fs : FS) (e : String)
    (herr : fetch_recent_papersE resultsOf (clock 0) 7 = .error e) :
    runE resultsOf clock fs = (fs, .error e) := by
  unfold runE
  rw [herr]

/-- Witness for C8: the first request fails with a connection error. -/
theorem C8_error_propagates_untouched_fs_witness :
    fetch_recent_papersE downResultsOf (idClock 0) 7 = .error "connection refused"
    ∧ runE downResultsOf idClock emptyFS = (emptyFS, .error "connection refused") :=
  ⟨rfl,
    C8_error_propagates_untouched_fs downResultsOf idClock emptyFS
      "connection refused" rfl⟩

end ArxivDigest
